import Mathlib

/-!
Shallow embedding of the `smc_stripe_server` repository.

The repository holds five near-duplicate Express servers:
* `ServerA`  — first document of `src/server.js` (invoices + points webhook),
* `ServerB`  — second document of `src/server.js` (minimal payment-intent server),
* `ServerC`  — third document of `src/server.js` (transactions variant),
* `Part000`  — `src/unnamed/part_000` (invoice-authoritative variant),
* `Part001`  — `src/unnamed/part_001` (points-award + upload-URL variant).

Each route handler is embedded as a pure function from a request, a model of
the remote Stripe state, and a model of the Supabase database to a result
record carrying the HTTP status, the list of remote calls performed
(`Effect`), and the database after the handler ran.  Webhook handlers take
the outcome of `stripe.webhooks.constructEvent` as a verification function
applied to the raw body, the signature header and the shared secret;
the cryptographic verification itself is an external SDK primitive.
-/

/-- Metadata object attached to a Stripe payment intent / invoice.
Stripe represents metadata as a string map; the code reads the keys
`user_id`, `invoice_id` and `transaction_id`. -/
structure Metadata where
  user_id : Option String
  invoice_id : Option String
  transaction_id : Option String
deriving DecidableEq

/-- The fields of `event.data.object` read by the webhook handlers.
`paid_at` models `invoice.status_transitions.paid_at` (epoch seconds). -/
structure EventObject where
  id : String
  metadata : Metadata
  amount_received : Nat
  payment_method_types : List String
  paid_at : Nat
deriving DecidableEq

/-- A verified Stripe event: its `type` string and its data object. -/
structure Event where
  type : String
  object : EventObject
deriving DecidableEq

/-- A row of the Supabase `invoice_items` relation joined by
`create-stripe-invoice` (description, quantity, unit_price). -/
structure InvoiceItem where
  description : Option String
  quantity : Option ℚ
  unit_price : Option ℚ
deriving DecidableEq

/-- A row of the Supabase `invoices` table.  `amount` is the stored dollar
amount (a numeric column, modelled as a rational). -/
structure InvoiceRow where
  id : String
  customer_id : String
  amount : ℚ
  status : String
  stripe_invoice_id : Option String
  stripe_customer_id : Option String
  payment_intent_id : Option String
  paid_at : Option Nat
  payment_method : Option String
  items : List InvoiceItem
deriving DecidableEq

/-- A row of the Supabase `transactions` table (variant C). -/
structure TransactionRow where
  id : String
  status : String
  payment_intent_id : Option String
deriving DecidableEq

/-- A row of the Supabase `profiles` table (joined for the client email). -/
structure Profile where
  id : String
  email : Option String
deriving DecidableEq

/-- The Supabase database state touched by the handlers. -/
structure DB where
  invoices : List InvoiceRow
  transactions : List TransactionRow
  profiles : List Profile
deriving DecidableEq

/-- A remote Stripe customer record. -/
structure StripeCustomer where
  id : String
  email : Option String
  name : Option String
deriving DecidableEq

/-- A remote Stripe invoice object (used by `invoice-payment-sheet`). -/
structure StripeInvoiceObj where
  id : String
  payment_intent : Option String
  customer : String
deriving DecidableEq

/-- The remote Stripe state: existing customers and invoices, plus the
identifiers/secrets Stripe would mint for newly created objects. -/
structure StripeEnv where
  customers : List StripeCustomer
  stripeInvoices : List StripeInvoiceObj
  newCustomerId : String
  newIntentId : String
  newInvoiceId : String
  clientSecret : String
  ephemeralSecret : String
deriving DecidableEq

/-- One remote call performed by a handler: Stripe API calls, Supabase
reads/writes, Supabase RPCs, and storage signed-URL requests.  Update
effects carry the `status` column value they write (`none` when the update
payload has no `status` key). -/
inductive Effect where
  | customersList (email : Option String)
  | customersCreate (email : Option String)
  | ephemeralKeyCreate (customer : String)
  | paymentIntentCreate (amount : Int) (customer : Option String)
  | paymentIntentUpdate (intent : String)
  | invoiceCreate (customer : String)
  | invoiceItemCreate (customer : String) (quantity : Int) (unit_amount : Int)
  | invoiceFinalize (inv : String)
  | invoiceRetrieve (inv : String)
  | supaSelectInvoice (id : String)
  | supaUpdateInvoice (col : String) (val : String) (status : Option String)
  | supaUpdateTransaction (id : String) (status : Option String)
  | rpcAwardPointsPayment (user : String) (amountCents : Nat)
  | rpcAwardPointsInvoice (invoiceId : String)
  | rpcReversePointsInvoice (invoiceId : String)
  | storageCreateSignedUploadUrl (path : String) (expires : Nat)
deriving DecidableEq

/-- The `status` column value written by an effect, if it is a table
update whose payload includes `status`. -/
def Effect.statusWrite : Effect → Option String
  | .supaUpdateInvoice _ _ s => s
  | .supaUpdateTransaction _ s => s
  | _ => none

/-- Whether an effect is a call to the payment processor (Stripe). -/
def Effect.isStripeCall : Effect → Bool
  | .customersList _ | .customersCreate _ | .ephemeralKeyCreate _
  | .paymentIntentCreate _ _ | .paymentIntentUpdate _ | .invoiceCreate _
  | .invoiceItemCreate _ _ _ | .invoiceFinalize _ | .invoiceRetrieve _ => true
  | _ => false

/-- Whether an effect creates a payment intent. -/
def Effect.isIntentCreate : Effect → Bool
  | .paymentIntentCreate _ _ => true
  | _ => false

/-- Whether an effect is the `award_points_for_payment` RPC. -/
def Effect.isAwardPaymentRpc : Effect → Bool
  | .rpcAwardPointsPayment _ _ => true
  | _ => false

/-- Whether an effect is the `award_points_for_invoice` RPC. -/
def Effect.isAwardInvoiceRpc : Effect → Bool
  | .rpcAwardPointsInvoice _ => true
  | _ => false

/-- Whether an effect's `status` write is non-terminal: either the update
payload has no `status` key at all, or it writes the literal `open`
(never `paid`, `succeeded`, `failed` or `unpaid`). -/
def Effect.nonTerminalStatusWrite (e : Effect) : Bool :=
  match e.statusWrite with
  | none => true
  | some s => s == "open"

/-- JavaScript truthiness of an optional string request field:
`undefined`/`null` and the empty string are falsy. -/
def falsyStr : Option String → Bool
  | none => true
  | some s => s == ""

/-- JavaScript truthiness of an optional numeric request field:
`undefined`/`null` and `0` are falsy. -/
def falsyNum : Option Int → Bool
  | none => true
  | some a => a == 0

/-- `Math.round(q * k)` for a rational `q` and integer factor `k`, computed
on the numerator and denominator with integer floor division so that
concrete instances evaluate by kernel reduction.  `jsRoundTimes k q` equals
`round (q * k)` (JavaScript `Math.round` rounds halves up, as `round`
does); see the lemma `jsRoundTimes_eq_round`. -/
def jsRoundTimes (k : ℤ) (q : ℚ) : ℤ :=
  (2 * k * q.num + q.den) / (2 * (q.den : ℤ))

/-- `supabase.from('invoices').select(...).eq('id', id).maybeSingle()`. -/
def DB.lookupInvoice (db : DB) (id : String) : Option InvoiceRow :=
  db.invoices.find? (fun r => r.id == id)

/-- `supabase.from('invoices').update(f).eq('id', id)`. -/
def DB.updateInvoices (db : DB) (id : String) (f : InvoiceRow → InvoiceRow) : DB :=
  { db with invoices := db.invoices.map (fun r => if r.id == id then f r else r) }

/-- `supabase.from('invoices').update(f).eq('stripe_invoice_id', sid)`. -/
def DB.updateInvoicesByStripeId (db : DB) (sid : String) (f : InvoiceRow → InvoiceRow) : DB :=
  { db with invoices :=
      db.invoices.map (fun r => if r.stripe_invoice_id == some sid then f r else r) }

/-- `supabase.from('transactions').update(f).eq('id', id)`. -/
def DB.updateTransactions (db : DB) (id : String) (f : TransactionRow → TransactionRow) : DB :=
  { db with transactions := db.transactions.map (fun r => if r.id == id then f r else r) }

/-- Profile lookup through the `invoices_customer_id_fkey` join. -/
def DB.lookupProfile (db : DB) (id : String) : Option Profile :=
  db.profiles.find? (fun p => p.id == id)

/-- Result of a route handler that may touch the database. -/
structure Result where
  status : Nat
  effects : List Effect
  db : DB
deriving DecidableEq

/-- Result of a webhook handler: status, whether the body was the
`{received: true}` acknowledgement, the remote calls made, and the
database afterwards. -/
structure WebhookResult where
  status : Nat
  received : Bool
  effects : List Effect
  db : DB
deriving DecidableEq

/-- Result of `POST /get-upload-url`. -/
structure UploadResult where
  status : Nat
  path : Option String
  mimeType : Option String
  effects : List Effect
deriving DecidableEq

/-- `stripe.customers.list({ email, limit: 1 })`: with an email the list is
filtered by exact email; with `undefined` the email parameter is omitted
and the first customer overall is returned. -/
def StripeEnv.listByEmail (env : StripeEnv) (email : Option String) : Option StripeCustomer :=
  match email with
  | some e => (env.customers.filter (fun c => c.email == some e)).head?
  | none => env.customers.head?

/-- `stripe.invoices.retrieve(id)`. -/
def StripeEnv.retrieveInvoice (env : StripeEnv) (id : String) : Option StripeInvoiceObj :=
  env.stripeInvoices.find? (fun i => i.id == id)

namespace Part000

/-- Request body of `POST /create-payment-intent` in part_000.  The handler
destructures only `customerId`, `customerEmail` and `invoiceId`; a
client-supplied `amount` may be present in the body but is never read. -/
structure CpiRequest where
  amount : Option Int
  customerId : Option String
  customerEmail : Option String
  invoiceId : Option String
deriving DecidableEq

/-- `getOrCreateCustomerByEmail` of part_000: list by email with limit 1,
else create with the local-part of the email as display name. -/
def getOrCreateCustomerByEmail (env : StripeEnv) (customerEmail : String) :
    StripeCustomer × List Effect :=
  match env.listByEmail (some customerEmail) with
  | some c => (c, [Effect.customersList (some customerEmail)])
  | none =>
      ({ id := env.newCustomerId, email := some customerEmail,
         name := some ((customerEmail.splitOn "@").headD "") },
       [Effect.customersList (some customerEmail), Effect.customersCreate (some customerEmail)])

/-- `POST /create-payment-intent` of part_000 (Supabase invoice is the
source of truth). -/
def createPaymentIntent (req : CpiRequest) (env : StripeEnv) (db : DB) : Result :=
  if falsyStr req.customerId then ⟨400, [], db⟩
  else if falsyStr req.customerEmail then ⟨400, [], db⟩
  else if falsyStr req.invoiceId then ⟨400, [], db⟩
  else
    let customerId := req.customerId.getD ""
    let customerEmail := req.customerEmail.getD ""
    let invoiceId := req.invoiceId.getD ""
    match db.lookupInvoice invoiceId with
    | none => ⟨404, [Effect.supaSelectInvoice invoiceId], db⟩
    | some invoice =>
        if invoice.customer_id ≠ customerId then
          ⟨403, [Effect.supaSelectInvoice invoiceId], db⟩
        else if invoice.status = "paid" then
          ⟨409, [Effect.supaSelectInvoice invoiceId], db⟩
        else
          let amountCents : Int := jsRoundTimes 100 invoice.amount
          if amountCents = 0 ∨ amountCents < 50 then
            ⟨400, [Effect.supaSelectInvoice invoiceId], db⟩
          else
            let (customer, custEffs) := getOrCreateCustomerByEmail env customerEmail
            ⟨200,
             Effect.supaSelectInvoice invoiceId :: custEffs ++
               [Effect.ephemeralKeyCreate customer.id,
                Effect.paymentIntentCreate amountCents (some customer.id),
                Effect.supaUpdateInvoice "id" invoiceId none],
             db.updateInvoices invoiceId
               (fun r => { r with payment_intent_id := some env.newIntentId })⟩

/-- The event-dispatch body of the part_000 webhook (after signature
verification).  `now` stands for `new Date().toISOString()`. -/
def handleEvent (now : Nat) (ev : Event) (db : DB) : WebhookResult :=
  let (db1, effs1) :=
    if ev.type = "payment_intent.succeeded" then
      match ev.object.metadata.invoice_id with
      | none => (db, [])
      | some invoiceId =>
          (db.updateInvoices invoiceId (fun r =>
             { r with status := "paid", paid_at := some now,
                      payment_method := ev.object.payment_method_types.head?,
                      payment_intent_id := some ev.object.id }),
           [Effect.supaUpdateInvoice "id" invoiceId (some "paid"),
            Effect.rpcAwardPointsInvoice invoiceId])
    else (db, [])
  let (db2, effs2) :=
    if ev.type = "payment_intent.payment_failed" then
      match ev.object.metadata.invoice_id with
      | none => (db1, [])
      | some invoiceId =>
          (db1.updateInvoices invoiceId (fun r =>
             { r with status := "unpaid",
                      payment_method := ev.object.payment_method_types.head?,
                      payment_intent_id := some ev.object.id }),
           [Effect.supaUpdateInvoice "id" invoiceId (some "unpaid"),
            Effect.rpcReversePointsInvoice invoiceId])
    else (db1, [])
  ⟨200, true, effs1 ++ effs2, db2⟩

/-- `POST /webhooks/stripe` of part_000: verify the raw body and header
signature against the shared secret, then dispatch. -/
def webhook (constructEvent : String → String → String → Option Event)
    (body sig secret : String) (now : Nat) (db : DB) : WebhookResult :=
  match constructEvent body sig secret with
  | none => ⟨400, false, [], db⟩
  | some ev => handleEvent now ev db

end Part000

namespace Part001

/-- Request body of `POST /create-payment-intent` in part_001. -/
structure CpiRequest where
  amount : Option Int
  customerEmail : Option String
  customerId : Option String
deriving DecidableEq

/-- Request body of `POST /get-upload-url`. -/
structure UploadRequest where
  fileName : Option String
deriving DecidableEq

/-- `POST /create-payment-intent` of part_001 (no database access). -/
def createPaymentIntent (req : CpiRequest) (env : StripeEnv) : Nat × List Effect :=
  if falsyNum req.amount ∨ req.amount.getD 0 < 50 then (400, [])
  else if falsyStr req.customerId then (400, [])
  else
    match env.listByEmail req.customerEmail with
    | some c =>
        (200, [Effect.customersList req.customerEmail,
               Effect.ephemeralKeyCreate c.id,
               Effect.paymentIntentCreate (req.amount.getD 0) (some c.id)])
    | none =>
        (200, [Effect.customersList req.customerEmail,
               Effect.customersCreate req.customerEmail,
               Effect.ephemeralKeyCreate env.newCustomerId,
               Effect.paymentIntentCreate (req.amount.getD 0) (some env.newCustomerId)])

/-- The event-dispatch body of the part_001 webhook (points award). -/
def handleEvent (ev : Event) (db : DB) : WebhookResult :=
  if ev.type = "payment_intent.succeeded" then
    match ev.object.metadata.user_id with
    | none => ⟨200, true, [], db⟩
    | some userId =>
        let amountCents := ev.object.amount_received
        let points := amountCents / 1000
        if points > 0 then
          ⟨200, true, [Effect.rpcAwardPointsPayment userId amountCents], db⟩
        else
          ⟨200, true, [], db⟩
  else ⟨200, true, [], db⟩

/-- `POST /webhooks/stripe` of part_001. -/
def webhook (constructEvent : String → String → String → Option Event)
    (body sig secret : String) (db : DB) : WebhookResult :=
  match constructEvent body sig secret with
  | none => ⟨400, false, [], db⟩
  | some ev => handleEvent ev db

/-- Decimal digits of `n`, least significant first, with `fuel` bounding
the recursion depth (structural, so that terms evaluate by reduction). -/
def decDigitsAux : Nat → Nat → List Nat
  | 0, _ => []
  | _ + 1, 0 => []
  | fuel + 1, n => n % 10 :: decDigitsAux fuel (n / 10)

/-- The decimal digit list of `n`, least significant first (`[0]` for 0). -/
def decList (n : Nat) : List Nat :=
  if n = 0 then [0] else decDigitsAux n n

/-- The decimal character rendering of a natural number, as produced by the
JS template interpolation `${Date.now()}`. -/
def decimalChars (n : Nat) : List Char :=
  ((decList n).map Nat.digitChar).reverse

/-- Decimal rendering of a natural as a string. -/
def natDec (n : Nat) : String := ⟨decimalChars n⟩

/-- The value denoted by a little-endian digit list (inverse of
`decList`, used to prove the rendering injective). -/
def digitsVal (l : List Nat) : Nat :=
  l.foldr (fun d acc => d + 10 * acc) 0

/-- The storage path `videos/${Date.now()}_${fileName}`. -/
def filePath (now : Nat) (fileName : String) : String :=
  "videos/" ++ natDec now ++ "_" ++ fileName

/-- `fileName.split('.').pop()`: the characters after the last dot, or the
whole name when it contains no dot. -/
def extAfterLastDot (l : List Char) : List Char :=
  (l.reverse.takeWhile (fun ch => ch != '.')).reverse

/-- `.toLowerCase()` on the extension characters. -/
def lowerChars (l : List Char) : List Char := l.map Char.toLower

/-- `fileName.split('.').pop().toLowerCase()` as a string. -/
def extOf (fileName : String) : String :=
  ⟨lowerChars (extAfterLastDot fileName.data)⟩

/-- The `mime-types` lookup for the allow-listed video extensions. -/
def mimeLookup (ext : String) : Option String :=
  if ext = "mp4" then some "video/mp4"
  else if ext = "mov" then some "video/quicktime"
  else if ext = "m4v" then some "video/x-m4v"
  else if ext = "avi" then some "video/x-msvideo"
  else none

/-- `POST /get-upload-url` of part_001.  `now` is `Date.now()`. -/
def getUploadUrl (now : Nat) (req : UploadRequest) : UploadResult :=
  if falsyStr req.fileName then ⟨400, none, none, []⟩
  else
    let fileName := req.fileName.getD ""
    let ext := extOf fileName
    if (["mp4", "mov", "m4v", "avi"].contains ext) = false then ⟨400, none, none, []⟩
    else
      let mimeType := (mimeLookup ext).getD "application/octet-stream"
      let fp := filePath now fileName
      ⟨200, some fp, some mimeType, [Effect.storageCreateSignedUploadUrl fp 3600]⟩

end Part001

namespace ServerA

/-- Request body of `POST /create-payment-intent` in the first server.js
document. -/
structure CpiRequest where
  amount : Option Int
  customerEmail : Option String
  customerId : Option String
  invoiceId : Option String
deriving DecidableEq

/-- Request body of `POST /create-stripe-invoice`. -/
structure CsiRequest where
  invoiceId : Option String
deriving DecidableEq

/-- Request body of `POST /invoice-payment-sheet`. -/
structure IpsRequest where
  stripeInvoiceId : Option String
deriving DecidableEq

/-- Customer resolution of server.js document A: list by email (the email
may be absent), else create with the local-part of the email (or the
literal `Customer`) as display name. -/
def findOrCreateCustomer (env : StripeEnv) (customerEmail : Option String) :
    StripeCustomer × List Effect :=
  match env.listByEmail customerEmail with
  | some c => (c, [Effect.customersList customerEmail])
  | none =>
      let localPart :=
        match customerEmail with
        | none => "Customer"
        | some e => let h := (e.splitOn "@").headD ""; if h = "" then "Customer" else h
      ({ id := env.newCustomerId, email := customerEmail, name := some localPart },
       [Effect.customersList customerEmail, Effect.customersCreate customerEmail])

/-- `POST /create-payment-intent` of server.js document A (card + ACH, no
database access). -/
def createPaymentIntent (req : CpiRequest) (env : StripeEnv) : Nat × List Effect :=
  if falsyNum req.amount ∨ req.amount.getD 0 < 50 then (400, [])
  else if falsyStr req.customerId then (400, [])
  else
    let (customer, custEffs) := findOrCreateCustomer env req.customerEmail
    (200, custEffs ++
      [Effect.ephemeralKeyCreate customer.id,
       Effect.paymentIntentCreate (req.amount.getD 0) (some customer.id)])

/-- Customer resolution of `create-stripe-invoice`: list by the profile
email, else create with that email (no display name). -/
def findOrCreateCustomerPlain (env : StripeEnv) (email : String) :
    StripeCustomer × List Effect :=
  match env.listByEmail (some email) with
  | some c => (c, [Effect.customersList (some email)])
  | none =>
      ({ id := env.newCustomerId, email := some email, name := none },
       [Effect.customersList (some email), Effect.customersCreate (some email)])

/-- `POST /create-stripe-invoice` of server.js document A: fetch the
Supabase invoice with its items and the owner's email, resolve the Stripe
customer, create and finalize a Stripe invoice with one line item per
stored item, and write the Stripe identifiers and status `open` back. -/
def createStripeInvoice (req : CsiRequest) (env : StripeEnv) (db : DB) : Result :=
  if falsyStr req.invoiceId then ⟨400, [], db⟩
  else
    let invoiceId := req.invoiceId.getD ""
    match db.lookupInvoice invoiceId with
    | none => ⟨500, [Effect.supaSelectInvoice invoiceId], db⟩
    | some invoice =>
        match (db.lookupProfile invoice.customer_id).bind (fun p => p.email) with
        | none => ⟨500, [Effect.supaSelectInvoice invoiceId], db⟩
        | some email =>
            let (customer, custEffs) := findOrCreateCustomerPlain env email
            let itemEffs := invoice.items.map (fun item =>
              Effect.invoiceItemCreate customer.id
                (jsRoundTimes 1 (item.quantity.getD 1))
                (jsRoundTimes 100 (item.unit_price.getD 0)))
            ⟨200,
             Effect.supaSelectInvoice invoiceId :: custEffs ++
               [Effect.invoiceCreate customer.id] ++ itemEffs ++
               [Effect.invoiceFinalize env.newInvoiceId,
                Effect.supaUpdateInvoice "id" invoice.id (some "open")],
             db.updateInvoices invoice.id (fun r =>
               { r with stripe_invoice_id := some env.newInvoiceId,
                        stripe_customer_id := some customer.id,
                        status := "open" })⟩

/-- `POST /invoice-payment-sheet` of server.js document A. -/
def invoicePaymentSheet (req : IpsRequest) (env : StripeEnv) : Nat × List Effect :=
  if falsyStr req.stripeInvoiceId then (400, [])
  else
    let sid := req.stripeInvoiceId.getD ""
    match env.retrieveInvoice sid with
    | none => (500, [Effect.invoiceRetrieve sid])
    | some invoice =>
        match invoice.payment_intent with
        | none => (500, [Effect.invoiceRetrieve sid])
        | some intentId =>
            (200, [Effect.invoiceRetrieve sid,
                   Effect.paymentIntentUpdate intentId,
                   Effect.ephemeralKeyCreate invoice.customer])

/-- The event-dispatch body of the server.js document A webhook.  `now`
stands for `new Date()`. -/
def handleEvent (now : Nat) (ev : Event) (db : DB) : WebhookResult :=
  let (db1, effs1) :=
    if ev.type = "invoice.payment_succeeded" then
      (db.updateInvoicesByStripeId ev.object.id (fun r =>
         { r with status := "paid", paid_at := some (ev.object.paid_at * 1000) }),
       [Effect.supaUpdateInvoice "stripe_invoice_id" ev.object.id (some "paid")])
    else (db, [])
  let (db2, effs2) :=
    if ev.type = "payment_intent.succeeded" then
      let userId := ev.object.metadata.user_id
      let invoiceId := ev.object.metadata.invoice_id
      let (dbA, effsA) :=
        match invoiceId with
        | none => (db1, [])
        | some iid =>
            (db1.updateInvoices iid (fun r =>
               { r with status := "paid", paid_at := some now }),
             [Effect.supaUpdateInvoice "id" iid (some "paid")])
      let effsB :=
        match userId with
        | none => []
        | some uid => [Effect.rpcAwardPointsPayment uid ev.object.amount_received]
      (dbA, effsA ++ effsB)
    else (db1, [])
  ⟨200, true, effs1 ++ effs2, db2⟩

/-- `POST /webhooks/stripe` of server.js document A. -/
def webhook (constructEvent : String → String → String → Option Event)
    (body sig secret : String) (now : Nat) (db : DB) : WebhookResult :=
  match constructEvent body sig secret with
  | none => ⟨400, false, [], db⟩
  | some ev => handleEvent now ev db

end ServerA

namespace ServerB

/-- Request body of `POST /create-payment-intent` in the second server.js
document (minimal variant, no Supabase at all). -/
structure CpiRequest where
  amount : Option Int
  customerEmail : Option String
deriving DecidableEq

/-- `POST /create-payment-intent` of server.js document B. -/
def createPaymentIntent (req : CpiRequest) (_env : StripeEnv) : Nat × List Effect :=
  if falsyNum req.amount then (400, [])
  else (200, [Effect.paymentIntentCreate (req.amount.getD 0) none])

end ServerB

namespace ServerC

/-- Request body of `POST /create-payment-intent` in the third server.js
document (transactions variant). -/
structure CpiRequest where
  amount : Option Int
  customerEmail : Option String
  customerId : Option String
  transactionId : Option String
deriving DecidableEq

/-- Customer resolution of server.js document C: `existing.data[0] ||
create({email})`. -/
def findOrCreateCustomer (env : StripeEnv) (customerEmail : Option String) :
    StripeCustomer × List Effect :=
  match env.listByEmail customerEmail with
  | some c => (c, [Effect.customersList customerEmail])
  | none =>
      ({ id := env.newCustomerId, email := customerEmail, name := none },
       [Effect.customersList customerEmail, Effect.customersCreate customerEmail])

/-- `POST /create-payment-intent` of server.js document C: validate, resolve
the customer, create the intent, and save the intent id onto the
transaction row (the update payload has no `status` key). -/
def createPaymentIntent (req : CpiRequest) (env : StripeEnv) (db : DB) : Result :=
  if falsyNum req.amount ∨ falsyStr req.customerId ∨ falsyStr req.transactionId then
    ⟨400, [], db⟩
  else
    let transactionId := req.transactionId.getD ""
    let (customer, custEffs) := findOrCreateCustomer env req.customerEmail
    ⟨200,
     custEffs ++
       [Effect.ephemeralKeyCreate customer.id,
        Effect.paymentIntentCreate (req.amount.getD 0) (some customer.id),
        Effect.supaUpdateTransaction transactionId none],
     db.updateTransactions transactionId
       (fun r => { r with payment_intent_id := some env.newIntentId })⟩

/-- The event-dispatch body of the server.js document C webhook.  A
`payment_intent.succeeded` (resp. failed/canceled) event lacking a
`transaction_id` returns the acknowledgement early with no update. -/
def handleEvent (ev : Event) (db : DB) : WebhookResult :=
  if ev.type = "payment_intent.succeeded" then
    match ev.object.metadata.transaction_id with
    | none => ⟨200, true, [], db⟩
    | some tid =>
        ⟨200, true, [Effect.supaUpdateTransaction tid (some "succeeded")],
         db.updateTransactions tid (fun r => { r with status := "succeeded" })⟩
  else if ev.type = "payment_intent.payment_failed" ∨ ev.type = "payment_intent.canceled" then
    match ev.object.metadata.transaction_id with
    | none => ⟨200, true, [], db⟩
    | some tid =>
        ⟨200, true, [Effect.supaUpdateTransaction tid (some "failed")],
         db.updateTransactions tid (fun r => { r with status := "failed" })⟩
  else ⟨200, true, [], db⟩

/-- `POST /webhooks/stripe` of server.js document C. -/
def webhook (constructEvent : String → String → String → Option Event)
    (body sig secret : String) (db : DB) : WebhookResult :=
  match constructEvent body sig secret with
  | none => ⟨400, false, [], db⟩
  | some ev => handleEvent ev db

end ServerC

/-! ### Concrete fixtures used by witnesses and counterexamples -/

/-- A stored invoice `inv1` owned by `c1`, amount 2 (dollars), status `open`. -/
def invOpen : InvoiceRow :=
  { id := "inv1", customer_id := "c1", amount := 2, status := "open",
    stripe_invoice_id := none, stripe_customer_id := none,
    payment_intent_id := none, paid_at := none, payment_method := none, items := [] }

/-- The same invoice already in status `paid`. -/
def invPaid : InvoiceRow := { invOpen with status := "paid" }

/-- A database holding only the open invoice. -/
def dbOpen : DB := ⟨[invOpen], [], []⟩

/-- A database holding only the paid invoice. -/
def dbPaid : DB := ⟨[invPaid], [], []⟩

/-- A Stripe environment with no pre-existing remote objects. -/
def env0 : StripeEnv :=
  { customers := [], stripeInvoices := [], newCustomerId := "cus_1",
    newIntentId := "pi_1", newInvoiceId := "in_1",
    clientSecret := "cs_secret", ephemeralSecret := "ek_secret" }

/-- A verified `payment_intent.succeeded` event whose metadata carries
`invoice_id = inv1` and no user id, amount received 5000 cents. -/
def evPiInv1 : Event :=
  ⟨"payment_intent.succeeded", ⟨"pi_1", ⟨none, some "inv1", none⟩, 5000, ["card"], 0⟩⟩

/-- A verified `payment_intent.succeeded` event carrying `user_id = u1`
and amount received 5000 cents. -/
def evPiUser : Event :=
  ⟨"payment_intent.succeeded", ⟨"pi_1", ⟨some "u1", none, none⟩, 5000, ["card"], 0⟩⟩

/-! ### Theorems -/

/-- C1: for every webhook request whose body/signature pair fails
verification against the shared webhook secret, every variant's handler
responds 400 and performs no storage mutation (no invoice/transaction
update and no points RPC), regardless of the payload content. -/
theorem c1_invalid_signature_rejected_without_mutation
    (constructEvent : String → String → String → Option Event)
    (body sig secret : String) (now : Nat) (db : DB)
    (h : constructEvent body sig secret = none) :
    ServerA.webhook constructEvent body sig secret now db = ⟨400, false, [], db⟩ ∧
    ServerC.webhook constructEvent body sig secret db = ⟨400, false, [], db⟩ ∧
    Part000.webhook constructEvent body sig secret now db = ⟨400, false, [], db⟩ ∧
    Part001.webhook constructEvent body sig secret db = ⟨400, false, [], db⟩ := by
  unfold ServerA.webhook ServerC.webhook Part000.webhook Part001.webhook
  rw [h]
  exact ⟨rfl, rfl, rfl, rfl⟩

/-- Witness for C1 at a concrete rejecting verifier and database. -/
theorem c1_invalid_signature_rejected_without_mutation_witness :
    ServerA.webhook (fun _ _ _ => none) "rawbody" "sighdr" "whsec" 7 dbOpen
      = ⟨400, false, [], dbOpen⟩ ∧
    ServerC.webhook (fun _ _ _ => none) "rawbody" "sighdr" "whsec" dbOpen
      = ⟨400, false, [], dbOpen⟩ ∧
    Part000.webhook (fun _ _ _ => none) "rawbody" "sighdr" "whsec" 7 dbOpen
      = ⟨400, false, [], dbOpen⟩ ∧
    Part001.webhook (fun _ _ _ => none) "rawbody" "sighdr" "whsec" dbOpen
      = ⟨400, false, [], dbOpen⟩ :=
  c1_invalid_signature_rejected_without_mutation
    (fun _ _ _ => none) "rawbody" "sighdr" "whsec" 7 dbOpen rfl

/-- C2: the part_000 webhook marks the referenced invoice `paid` and issues
one `award_points_for_invoice` RPC per delivery, so redelivering the
identical `payment_intent.succeeded` event issues a second points-award
call: the handler keeps no processed-event record, and the points are
doubled unless the external RPC deduplicates. -/
theorem c2_redelivery_awards_points_twice :
    (((Part000.handleEvent 100 evPiInv1 dbOpen).db.lookupInvoice "inv1").map
        InvoiceRow.status = some "paid") ∧
    (Part000.handleEvent 100 evPiInv1 dbOpen).effects.countP
        Effect.isAwardInvoiceRpc = 1 ∧
    (Part000.handleEvent 200 evPiInv1
        (Part000.handleEvent 100 evPiInv1 dbOpen).db).effects.countP
        Effect.isAwardInvoiceRpc = 1 :=
  ⟨rfl, rfl, rfl⟩

/-- C8: a verified webhook event lacking the correlation metadata expected
by its handler (invoice_id for part_000, user_id for part_001,
transaction_id for variant C, invoice_id and user_id for variant A) is
acknowledged with 200 `{received: true}` and produces no storage mutation
and no points RPC. -/
theorem c8_missing_metadata_acknowledged_without_mutation :
    (∀ (ev : Event) (now : Nat) (db : DB), ev.type = "payment_intent.succeeded" →
        ev.object.metadata.invoice_id = none →
        Part000.handleEvent now ev db = ⟨200, true, [], db⟩) ∧
    (∀ (ev : Event) (now : Nat) (db : DB), ev.type = "payment_intent.payment_failed" →
        ev.object.metadata.invoice_id = none →
        Part000.handleEvent now ev db = ⟨200, true, [], db⟩) ∧
    (∀ (ev : Event) (db : DB), ev.type = "payment_intent.succeeded" →
        ev.object.metadata.user_id = none →
        Part001.handleEvent ev db = ⟨200, true, [], db⟩) ∧
    (∀ (ev : Event) (db : DB),
        (ev.type = "payment_intent.succeeded" ∨
         ev.type = "payment_intent.payment_failed" ∨
         ev.type = "payment_intent.canceled") →
        ev.object.metadata.transaction_id = none →
        ServerC.handleEvent ev db = ⟨200, true, [], db⟩) ∧
    (∀ (ev : Event) (now : Nat) (db : DB), ev.type = "payment_intent.succeeded" →
        ev.object.metadata.invoice_id = none →
        ev.object.metadata.user_id = none →
        ServerA.handleEvent now ev db = ⟨200, true, [], db⟩) := by
  refine ⟨?_, ?_, ?_, ?_, ?_⟩
  · intro ev now db h1 h2
    simp [Part000.handleEvent, h1, h2]
  · intro ev now db h1 h2
    simp [Part000.handleEvent, h1, h2]
  · intro ev db h1 h2
    simp [Part001.handleEvent, h1, h2]
  · intro ev db h1 h2
    rcases h1 with h1 | h1 | h1 <;> simp [ServerC.handleEvent, h1, h2]
  · intro ev now db h1 h2 h3
    simp [ServerA.handleEvent, h1, h2, h3]

/-- Witness for C8: a verified succeeded event with empty metadata is
acknowledged by part_000 with no mutation. -/
theorem c8_missing_metadata_acknowledged_without_mutation_witness :
    Part000.handleEvent 7 ⟨"payment_intent.succeeded", ⟨"pi_9", ⟨none, none, none⟩, 5000, ["card"], 0⟩⟩ dbOpen
      = ⟨200, true, [], dbOpen⟩ :=
  c8_missing_metadata_acknowledged_without_mutation.1
    ⟨"payment_intent.succeeded", ⟨"pi_9", ⟨none, none, none⟩, 5000, ["card"], 0⟩⟩
    7 dbOpen rfl rfl

/-- `jsRoundTimes` agrees with the mathematical rounding of `q * k`
(JavaScript `Math.round` rounds halves toward positive infinity, exactly
as Mathlib's `round`). -/
theorem jsRoundTimes_eq_round (k : ℤ) (q : ℚ) : jsRoundTimes k q = round (q * (k : ℚ)) := by
  have hden : ((q.den : ℚ)) ≠ 0 := Nat.cast_ne_zero.mpr q.den_nz
  have hx : q * (k : ℚ) + 1 / 2 = ((2 * k * q.num + q.den : ℤ) : ℚ) / ((2 * q.den : ℕ) : ℚ) := by
    conv_lhs => rw [← Rat.num_div_den q]
    push_cast
    field_simp
    ring
  rw [round_eq, hx, Rat.floor_intCast_div_natCast]
  unfold jsRoundTimes
  push_cast
  rfl

/-- C3 (counterexample): a create-payment-intent request referencing the
stored paid invoice `inv1` but supplying the non-owning customer `c2`
receives 403, not 409 — the ownership check precedes the already-paid
check, so the claim as stated fails for such requests. -/
theorem c3_counterexample_paid_invoice_with_foreign_customer_gets_403 :
    ((dbPaid.lookupInvoice "inv1").map InvoiceRow.status = some "paid") ∧
    (Part000.createPaymentIntent ⟨none, some "c2", some "client@x.com", some "inv1"⟩
        env0 dbPaid).status = 403 ∧
    (Part000.createPaymentIntent ⟨none, some "c2", some "client@x.com", some "inv1"⟩
        env0 dbPaid).status ≠ 409 :=
  ⟨rfl, rfl, by decide⟩

/-- C3 (amended): a create-payment-intent request whose required fields are
present, whose supplied customer is the invoice's owner, and whose stored
invoice is already `paid`, receives 409, and no payment-processor call is
made (the only remote call is the Supabase invoice read). -/
theorem c3_paid_invoice_conflict_without_processor_call
    (a : Option Int) (cid em iid : String) (env : StripeEnv) (db : DB) (inv : InvoiceRow)
    (hc : cid ≠ "") (he : em ≠ "") (hi : iid ≠ "")
    (hlook : db.lookupInvoice iid = some inv)
    (hown : inv.customer_id = cid)
    (hpaid : inv.status = "paid") :
    Part000.createPaymentIntent ⟨a, some cid, some em, some iid⟩ env db
      = ⟨409, [Effect.supaSelectInvoice iid], db⟩ ∧
    ((Part000.createPaymentIntent ⟨a, some cid, some em, some iid⟩ env db).effects.all
      (fun e => !e.isStripeCall)) = true := by
  have h : Part000.createPaymentIntent ⟨a, some cid, some em, some iid⟩ env db
      = ⟨409, [Effect.supaSelectInvoice iid], db⟩ := by
    unfold Part000.createPaymentIntent
    simp [falsyStr, hc, he, hi, hlook, hown, hpaid]
  exact ⟨h, by rw [h]; rfl⟩

/-- Witness for C3 (amended) at the stored paid invoice and its owner. -/
theorem c3_paid_invoice_conflict_without_processor_call_witness :
    (Part000.createPaymentIntent ⟨none, some "c1", some "client@x.com", some "inv1"⟩
        env0 dbPaid = ⟨409, [Effect.supaSelectInvoice "inv1"], dbPaid⟩) ∧
    ((Part000.createPaymentIntent ⟨none, some "c1", some "client@x.com", some "inv1"⟩
        env0 dbPaid).effects.all (fun e => !e.isStripeCall)) = true :=
  c3_paid_invoice_conflict_without_processor_call none "c1" "client@x.com" "inv1"
    env0 dbPaid invPaid (by decide) (by decide) (by decide) rfl rfl rfl

/-- C4 (counterexample): a request supplying customer `c2` against the
stored invoice owned by `c1` but omitting `customerEmail` receives 400
(missing-field check fires first), not 403 — so the claim as stated fails
for requests that also miss a required field. -/
theorem c4_counterexample_mismatched_customer_missing_email_gets_400 :
    ((dbOpen.lookupInvoice "inv1").map InvoiceRow.customer_id = some "c1") ∧
    (Part000.createPaymentIntent ⟨none, some "c2", none, some "inv1"⟩
        env0 dbOpen).status = 400 ∧
    (Part000.createPaymentIntent ⟨none, some "c2", none, some "inv1"⟩
        env0 dbOpen).status ≠ 403 :=
  ⟨rfl, rfl, by decide⟩

/-- C4 (amended): a create-payment-intent request whose required fields are
present and whose supplied customer differs from the stored invoice's
owning `customer_id` receives 403, and no payment intent is created (the
only remote call is the Supabase invoice read). -/
theorem c4_foreign_customer_forbidden_without_intent
    (a : Option Int) (cid em iid : String) (env : StripeEnv) (db : DB) (inv : InvoiceRow)
    (hc : cid ≠ "") (he : em ≠ "") (hi : iid ≠ "")
    (hlook : db.lookupInvoice iid = some inv)
    (hmm : inv.customer_id ≠ cid) :
    Part000.createPaymentIntent ⟨a, some cid, some em, some iid⟩ env db
      = ⟨403, [Effect.supaSelectInvoice iid], db⟩ ∧
    ((Part000.createPaymentIntent ⟨a, some cid, some em, some iid⟩ env db).effects.all
      (fun e => !e.isIntentCreate)) = true := by
  have h : Part000.createPaymentIntent ⟨a, some cid, some em, some iid⟩ env db
      = ⟨403, [Effect.supaSelectInvoice iid], db⟩ := by
    unfold Part000.createPaymentIntent
    simp [falsyStr, hc, he, hi, hlook, hmm]
  exact ⟨h, by rw [h]; rfl⟩

/-- Witness for C4 (amended): customer `c2` against the invoice owned by
`c1`. -/
theorem c4_foreign_customer_forbidden_without_intent_witness :
    (Part000.createPaymentIntent ⟨none, some "c2", some "client@x.com", some "inv1"⟩
        env0 dbOpen = ⟨403, [Effect.supaSelectInvoice "inv1"], dbOpen⟩) ∧
    ((Part000.createPaymentIntent ⟨none, some "c2", some "client@x.com", some "inv1"⟩
        env0 dbOpen).effects.all (fun e => !e.isIntentCreate)) = true :=
  c4_foreign_customer_forbidden_without_intent none "c2" "client@x.com" "inv1"
    env0 dbOpen invOpen (by decide) (by decide) (by decide) rfl (by decide)

/-- The customer-resolution helper of part_000 performs only customer
list/create calls, never a payment-intent creation. -/
theorem part000_getOrCreate_effects_no_intent (env : StripeEnv) (e : String)
    (amt : ℤ) (cust : Option String) :
    Effect.paymentIntentCreate amt cust ∉ (Part000.getOrCreateCustomerByEmail env e).2 := by
  unfold Part000.getOrCreateCustomerByEmail
  split <;> simp

/-- C5: in the invoice-authoritative variant the created payment intent's
amount is `round(invoice.amount * 100)` taken from the stored invoice and
is independent of any client-supplied amount: two requests differing only
in the client amount field produce identical results, and every payment
intent the handler creates carries the stored invoice's rounded amount. -/
theorem c5_intent_amount_from_stored_invoice_only :
    (∀ (a1 a2 : Option Int) (cid em iid : Option String) (env : StripeEnv) (db : DB),
        Part000.createPaymentIntent ⟨a1, cid, em, iid⟩ env db =
        Part000.createPaymentIntent ⟨a2, cid, em, iid⟩ env db) ∧
    (∀ (req : Part000.CpiRequest) (env : StripeEnv) (db : DB) (iid : String)
        (inv : InvoiceRow),
        req.invoiceId = some iid → db.lookupInvoice iid = some inv →
        ∀ (amt : ℤ) (cust : Option String),
          Effect.paymentIntentCreate amt cust ∈
            (Part000.createPaymentIntent req env db).effects →
          amt = round (inv.amount * 100)) := by
  constructor
  · intro a1 a2 cid em iid env db
    rfl
  · intro req env db iid inv hiid hlook amt cust hmem
    obtain ⟨a, c, e, i⟩ := req
    simp only at hiid
    subst hiid
    unfold Part000.createPaymentIntent at hmem
    simp only [Option.getD_some] at hmem
    rw [hlook] at hmem
    by_cases h1 : falsyStr c = true
    · simp [h1] at hmem
    by_cases h2 : falsyStr e = true
    · simp [h1, h2] at hmem
    by_cases h3 : falsyStr (some iid) = true
    · simp [h1, h2, h3] at hmem
    by_cases h4 : inv.customer_id = c.getD ""
    case neg => simp [h1, h2, h3, h4] at hmem
    by_cases h5 : inv.status = "paid"
    · simp [h1, h2, h3, h4, h5] at hmem
    by_cases h6 : jsRoundTimes 100 inv.amount = 0 ∨ jsRoundTimes 100 inv.amount < 50
    · simp [h1, h2, h3, h4, h5, h6] at hmem
    simp [h1, h2, h3, h4, h5, h6, part000_getOrCreate_effects_no_intent] at hmem
    rw [hmem.1, jsRoundTimes_eq_round]
    norm_num

/-- Witness for C5: two requests for the stored open invoice differing
only in the client amount produce the same result, and the intent created
for it carries 200 minor units = round(2 dollars * 100). -/
theorem c5_intent_amount_from_stored_invoice_only_witness :
    (Part000.createPaymentIntent ⟨some 1, some "c1", some "client@x.com", some "inv1"⟩
        env0 dbOpen =
     Part000.createPaymentIntent ⟨some 999999, some "c1", some "client@x.com", some "inv1"⟩
        env0 dbOpen) ∧
    ((200 : ℤ) = round (invOpen.amount * 100)) := by
  constructor
  · exact c5_intent_amount_from_stored_invoice_only.1 (some 1) (some 999999)
      (some "c1") (some "client@x.com") (some "inv1") env0 dbOpen
  · exact c5_intent_amount_from_stored_invoice_only.2
      ⟨some 1, some "c1", some "client@x.com", some "inv1"⟩ env0 dbOpen "inv1" invOpen
      rfl rfl 200 (some "cus_1") (by decide)

/-- C10: for a verified `payment_intent.succeeded` event carrying a user
id, the part_001 handler acknowledges with 200, performs no database
mutation, and invokes the points-award RPC exactly when
`floor(amount_received / 1000) > 0`. -/
theorem c10_points_award_iff_ten_dollar_floor_positive
    (ev : Event) (db : DB) (u : String)
    (h1 : ev.type = "payment_intent.succeeded")
    (h2 : ev.object.metadata.user_id = some u) :
    (Part001.handleEvent ev db).status = 200 ∧
    (Part001.handleEvent ev db).received = true ∧
    (Part001.handleEvent ev db).db = db ∧
    (Part001.handleEvent ev db).effects.countP Effect.isAwardPaymentRpc =
      (if 0 < ev.object.amount_received / 1000 then 1 else 0) := by
  simp only [Part001.handleEvent, h1, h2, if_true]
  by_cases hp : 0 < ev.object.amount_received / 1000
  · simp [hp, List.countP_cons, Effect.isAwardPaymentRpc]
  · simp [hp]

/-- Witness for C10: a $50 payment (5000 cents) for user `u1` awards
points exactly once, and a $5 payment (500 cents) awards none. -/
theorem c10_points_award_iff_ten_dollar_floor_positive_witness :
    ((Part001.handleEvent evPiUser dbOpen).status = 200 ∧
     (Part001.handleEvent evPiUser dbOpen).received = true ∧
     (Part001.handleEvent evPiUser dbOpen).db = dbOpen ∧
     (Part001.handleEvent evPiUser dbOpen).effects.countP Effect.isAwardPaymentRpc =
       (if 0 < evPiUser.object.amount_received / 1000 then 1 else 0)) ∧
    (Part001.handleEvent
        ⟨"payment_intent.succeeded", ⟨"pi_2", ⟨some "u1", none, none⟩, 500, ["card"], 0⟩⟩
        dbOpen).effects.countP Effect.isAwardPaymentRpc = 0 := by
  constructor
  · exact c10_points_award_iff_ten_dollar_floor_positive evPiUser dbOpen "u1" rfl rfl
  · have h := c10_points_award_iff_ten_dollar_floor_positive
      ⟨"payment_intent.succeeded", ⟨"pi_2", ⟨some "u1", none, none⟩, 500, ["card"], 0⟩⟩
      dbOpen "u1" rfl rfl
    simpa using h.2.2.2

/-- The customer-resolution helper of server.js document A performs no
status-writing effect. -/
theorem serverA_findOrCreate_status_ok (env : StripeEnv) (em : Option String) :
    ((ServerA.findOrCreateCustomer env em).2.all Effect.nonTerminalStatusWrite) = true := by
  unfold ServerA.findOrCreateCustomer
  split <;> rfl

/-- The plain customer-resolution helper of `create-stripe-invoice`
performs no status-writing effect. -/
theorem serverA_findOrCreatePlain_status_ok (env : StripeEnv) (em : String) :
    ((ServerA.findOrCreateCustomerPlain env em).2.all Effect.nonTerminalStatusWrite) = true := by
  unfold ServerA.findOrCreateCustomerPlain
  split <;> rfl

/-- The customer-resolution helper of server.js document C performs no
status-writing effect. -/
theorem serverC_findOrCreate_status_ok (env : StripeEnv) (em : Option String) :
    ((ServerC.findOrCreateCustomer env em).2.all Effect.nonTerminalStatusWrite) = true := by
  unfold ServerC.findOrCreateCustomer
  split <;> rfl

/-- The customer-resolution helper of part_000 performs no status-writing
effect. -/
theorem part000_getOrCreate_status_ok (env : StripeEnv) (em : String) :
    ((Part000.getOrCreateCustomerByEmail env em).2.all Effect.nonTerminalStatusWrite) = true := by
  unfold Part000.getOrCreateCustomerByEmail
  split <;> rfl

/-- C6: stored invoice/transaction `status` is moved to `paid`, `succeeded`
or `failed` only by the webhook handlers: every table update issued by a
non-webhook POST handler either omits the `status` key entirely
(create-payment-intent writes only `payment_intent_id`) or writes the
literal `open` (create-stripe-invoice). -/
theorem c6_only_webhooks_write_terminal_status :
    (∀ (req : ServerA.CpiRequest) (env : StripeEnv),
        ((ServerA.createPaymentIntent req env).2.all Effect.nonTerminalStatusWrite) = true) ∧
    (∀ (req : ServerA.CsiRequest) (env : StripeEnv) (db : DB),
        ((ServerA.createStripeInvoice req env db).effects.all
          Effect.nonTerminalStatusWrite) = true) ∧
    (∀ (req : ServerA.IpsRequest) (env : StripeEnv),
        ((ServerA.invoicePaymentSheet req env).2.all Effect.nonTerminalStatusWrite) = true) ∧
    (∀ (req : ServerB.CpiRequest) (env : StripeEnv),
        ((ServerB.createPaymentIntent req env).2.all Effect.nonTerminalStatusWrite) = true) ∧
    (∀ (req : ServerC.CpiRequest) (env : StripeEnv) (db : DB),
        ((ServerC.createPaymentIntent req env db).effects.all
          Effect.nonTerminalStatusWrite) = true) ∧
    (∀ (req : Part000.CpiRequest) (env : StripeEnv) (db : DB),
        ((Part000.createPaymentIntent req env db).effects.all
          Effect.nonTerminalStatusWrite) = true) ∧
    (∀ (req : Part001.CpiRequest) (env : StripeEnv),
        ((Part001.createPaymentIntent req env).2.all Effect.nonTerminalStatusWrite) = true) ∧
    (∀ (now : Nat) (req : Part001.UploadRequest),
        ((Part001.getUploadUrl now req).effects.all Effect.nonTerminalStatusWrite) = true) := by
  refine ⟨?_, ?_, ?_, ?_, ?_, ?_, ?_, ?_⟩
  · intro req env
    unfold ServerA.createPaymentIntent
    split
    · rfl
    split
    · rfl
    rcases hoc : ServerA.findOrCreateCustomer env req.customerEmail with ⟨customer, custEffs⟩
    have hall := serverA_findOrCreate_status_ok env req.customerEmail
    rw [hoc] at hall
    simp [hoc, List.all_append, hall, Effect.nonTerminalStatusWrite, Effect.statusWrite]
  · intro req env db
    unfold ServerA.createStripeInvoice
    split
    · rfl
    rcases hlk : db.lookupInvoice (req.invoiceId.getD "") with _ | invoice
    · simp [hlk, Effect.nonTerminalStatusWrite, Effect.statusWrite]
    simp only [hlk]
    rcases hpe : (db.lookupProfile invoice.customer_id).bind (fun p => p.email) with _ | email
    · simp [hpe, Effect.nonTerminalStatusWrite, Effect.statusWrite]
    simp only [hpe]
    rcases hoc : ServerA.findOrCreateCustomerPlain env email with ⟨customer, custEffs⟩
    have hall := serverA_findOrCreatePlain_status_ok env email
    rw [hoc] at hall
    simp [hoc, List.all_append, List.all_map, hall,
      Effect.nonTerminalStatusWrite, Effect.statusWrite, Function.comp]
  · intro req env
    unfold ServerA.invoicePaymentSheet
    split
    · rfl
    rcases hrt : env.retrieveInvoice (req.stripeInvoiceId.getD "") with _ | invoice
    · simp [hrt, Effect.nonTerminalStatusWrite, Effect.statusWrite]
    rcases hpi : invoice.payment_intent with _ | intentId
    · simp [hrt, hpi, Effect.nonTerminalStatusWrite, Effect.statusWrite]
    · simp [hrt, hpi, Effect.nonTerminalStatusWrite, Effect.statusWrite]
  · intro req env
    unfold ServerB.createPaymentIntent
    repeat' split
    all_goals rfl
  · intro req env db
    unfold ServerC.createPaymentIntent
    split
    · rfl
    rcases hoc : ServerC.findOrCreateCustomer env req.customerEmail with ⟨customer, custEffs⟩
    have hall := serverC_findOrCreate_status_ok env req.customerEmail
    rw [hoc] at hall
    simp [hoc, List.all_append, hall, Effect.nonTerminalStatusWrite, Effect.statusWrite]
  · intro req env db
    unfold Part000.createPaymentIntent
    split
    · rfl
    split
    · rfl
    split
    · rfl
    rcases hlk : db.lookupInvoice (req.invoiceId.getD "") with _ | invoice
    · simp [hlk, Effect.nonTerminalStatusWrite, Effect.statusWrite]
    simp only [hlk]
    split
    · rfl
    split
    · rfl
    split
    · rfl
    rcases hoc : Part000.getOrCreateCustomerByEmail env (req.customerEmail.getD "")
      with ⟨customer, custEffs⟩
    have hall := part000_getOrCreate_status_ok env (req.customerEmail.getD "")
    rw [hoc] at hall
    simp [hoc, List.all_append, hall, Effect.nonTerminalStatusWrite, Effect.statusWrite]
  · intro req env
    unfold Part001.createPaymentIntent
    repeat' split
    all_goals rfl
  · intro now req
    unfold Part001.getUploadUrl
    split
    · rfl
    dsimp only
    split
    · rfl
    · rfl

/-- C7: a request to any POST endpoint that fails that endpoint's required
field validation — a missing/falsy required field, or (in the variants
that enforce the 50-minor-unit minimum) an absent or below-minimum amount
— receives 400 and no remote call of any kind is made (the effect list is
empty and the database is untouched). -/
theorem c7_validation_failure_yields_400_without_remote_calls :
    (∀ (req : ServerA.CpiRequest) (env : StripeEnv),
        (falsyNum req.amount = true ∨ req.amount.getD 0 < 50 ∨
         falsyStr req.customerId = true) →
        ServerA.createPaymentIntent req env = (400, [])) ∧
    (∀ (req : ServerA.CsiRequest) (env : StripeEnv) (db : DB),
        falsyStr req.invoiceId = true →
        ServerA.createStripeInvoice req env db = ⟨400, [], db⟩) ∧
    (∀ (req : ServerA.IpsRequest) (env : StripeEnv),
        falsyStr req.stripeInvoiceId = true →
        ServerA.invoicePaymentSheet req env = (400, [])) ∧
    (∀ (req : ServerB.CpiRequest) (env : StripeEnv),
        falsyNum req.amount = true →
        ServerB.createPaymentIntent req env = (400, [])) ∧
    (∀ (req : ServerC.CpiRequest) (env : StripeEnv) (db : DB),
        (falsyNum req.amount = true ∨ falsyStr req.customerId = true ∨
         falsyStr req.transactionId = true) →
        ServerC.createPaymentIntent req env db = ⟨400, [], db⟩) ∧
    (∀ (req : Part000.CpiRequest) (env : StripeEnv) (db : DB),
        (falsyStr req.customerId = true ∨ falsyStr req.customerEmail = true ∨
         falsyStr req.invoiceId = true) →
        Part000.createPaymentIntent req env db = ⟨400, [], db⟩) ∧
    (∀ (req : Part001.CpiRequest) (env : StripeEnv),
        (falsyNum req.amount = true ∨ req.amount.getD 0 < 50 ∨
         falsyStr req.customerId = true) →
        Part001.createPaymentIntent req env = (400, [])) ∧
    (∀ (now : Nat) (req : Part001.UploadRequest),
        falsyStr req.fileName = true →
        Part001.getUploadUrl now req = ⟨400, none, none, []⟩) := by
  refine ⟨?_, ?_, ?_, ?_, ?_, ?_, ?_, ?_⟩
  · intro req env h
    unfold ServerA.createPaymentIntent
    rcases h with h | h | h
    · rw [if_pos (Or.inl h)]
    · rw [if_pos (Or.inr h)]
    · simp [h]
  · intro req env db h
    unfold ServerA.createStripeInvoice
    rw [if_pos h]
  · intro req env h
    unfold ServerA.invoicePaymentSheet
    rw [if_pos h]
  · intro req env h
    unfold ServerB.createPaymentIntent
    rw [if_pos h]
  · intro req env db h
    unfold ServerC.createPaymentIntent
    rw [if_pos h]
  · intro req env db h
    unfold Part000.createPaymentIntent
    rcases h with h | h | h
    · rw [if_pos h]
    · simp [h]
    · simp [h]
  · intro req env h
    unfold Part001.createPaymentIntent
    rcases h with h | h | h
    · rw [if_pos (Or.inl h)]
    · rw [if_pos (Or.inr h)]
    · simp [h]
  · intro now req h
    unfold Part001.getUploadUrl
    rw [if_pos h]

/-- Witness for C7: concrete invalid requests to each endpoint (below
minimum amount, missing identifiers, missing file name) are rejected with
400 and an empty effect list. -/
theorem c7_validation_failure_yields_400_without_remote_calls_witness :
    ServerA.createPaymentIntent ⟨some 10, some "client@x.com", some "c1", none⟩ env0
      = (400, []) ∧
    ServerA.createStripeInvoice ⟨none⟩ env0 dbOpen = ⟨400, [], dbOpen⟩ ∧
    ServerA.invoicePaymentSheet ⟨none⟩ env0 = (400, []) ∧
    ServerB.createPaymentIntent ⟨none, none⟩ env0 = (400, []) ∧
    ServerC.createPaymentIntent ⟨some 100, some "client@x.com", some "c1", none⟩ env0 dbOpen
      = ⟨400, [], dbOpen⟩ ∧
    Part000.createPaymentIntent ⟨none, some "c1", none, some "inv1"⟩ env0 dbOpen
      = ⟨400, [], dbOpen⟩ ∧
    Part001.createPaymentIntent ⟨some 49, none, some "c1"⟩ env0 = (400, []) ∧
    Part001.getUploadUrl 5 ⟨none⟩ = ⟨400, none, none, []⟩ :=
  ⟨c7_validation_failure_yields_400_without_remote_calls.1 _ env0
      (Or.inr (Or.inl (by decide))),
   c7_validation_failure_yields_400_without_remote_calls.2.1 _ env0 dbOpen (by decide),
   c7_validation_failure_yields_400_without_remote_calls.2.2.1 _ env0 (by decide),
   c7_validation_failure_yields_400_without_remote_calls.2.2.2.1 _ env0 (by decide),
   c7_validation_failure_yields_400_without_remote_calls.2.2.2.2.1 _ env0 dbOpen
      (Or.inr (Or.inr (by decide))),
   c7_validation_failure_yields_400_without_remote_calls.2.2.2.2.2.1 _ env0 dbOpen
      (Or.inr (Or.inl (by decide))),
   c7_validation_failure_yields_400_without_remote_calls.2.2.2.2.2.2.1 _ env0
      (Or.inr (Or.inl (by decide))),
   c7_validation_failure_yields_400_without_remote_calls.2.2.2.2.2.2.2 5 ⟨none⟩ (by decide)⟩

/-- The fuel-bounded decimal digit rendering evaluates back to its input
(with enough fuel). -/
theorem part001_decDigitsAux_val : ∀ (fuel n : Nat), n ≤ fuel →
    Part001.digitsVal (Part001.decDigitsAux fuel n) = n := by
  intro fuel
  induction fuel with
  | zero =>
      intro n hn
      have : n = 0 := Nat.le_zero.mp hn
      subst this
      rfl
  | succ f ih =>
      intro n hn
      cases n with
      | zero => rfl
      | succ m =>
          have hdiv : (m + 1) / 10 ≤ f := by
            have := Nat.div_lt_self (Nat.succ_pos m) (by omega : 1 < 10)
            omega
          have hrec := ih ((m + 1) / 10) hdiv
          simp only [Part001.decDigitsAux, Part001.digitsVal, List.foldr] at hrec ⊢
          rw [hrec]
          omega

/-- `digitsVal` inverts `decList`. -/
theorem part001_decList_val (n : Nat) : Part001.digitsVal (Part001.decList n) = n := by
  unfold Part001.decList
  split
  · rename_i h; subst h; rfl
  · exact part001_decDigitsAux_val n n (Nat.le_refl n)

/-- All entries of the fuel-bounded digit rendering are digits. -/
theorem part001_decDigitsAux_lt : ∀ (fuel n : Nat), ∀ d ∈ Part001.decDigitsAux fuel n,
    d < 10 := by
  intro fuel
  induction fuel with
  | zero => intro n d hd; simp [Part001.decDigitsAux] at hd
  | succ f ih =>
      intro n d hd
      cases n with
      | zero => simp [Part001.decDigitsAux] at hd
      | succ m =>
          simp only [Part001.decDigitsAux, List.mem_cons] at hd
          rcases hd with h | h
          · subst h; exact Nat.mod_lt _ (by omega)
          · exact ih _ _ h

/-- All entries of `decList` are digits. -/
theorem part001_decList_lt (n : Nat) : ∀ d ∈ Part001.decList n, d < 10 := by
  unfold Part001.decList
  split
  · intro d hd; simp at hd; omega
  · exact part001_decDigitsAux_lt n n

/-- `Nat.digitChar` is injective below 10. -/
theorem digitChar_lt_ten_inj : ∀ d1 < 10, ∀ d2 < 10,
    Nat.digitChar d1 = Nat.digitChar d2 → d1 = d2 := by decide

/-- `Nat.digitChar` of a digit is never the underscore separator. -/
theorem digitChar_lt_ten_ne_underscore : ∀ d < 10, Nat.digitChar d ≠ '_' := by decide

/-- Mapping `Nat.digitChar` over digit lists is injective. -/
theorem map_digitChar_inj : ∀ (l1 l2 : List Nat),
    (∀ d ∈ l1, d < 10) → (∀ d ∈ l2, d < 10) →
    l1.map Nat.digitChar = l2.map Nat.digitChar → l1 = l2 := by
  intro l1
  induction l1 with
  | nil => intro l2 _ _ h; cases l2 <;> simp_all
  | cons d1 t1 ih =>
      intro l2 h1 h2 h
      cases l2 with
      | nil => simp_all
      | cons d2 t2 =>
          simp only [List.map_cons, List.cons.injEq] at h
          have hd := digitChar_lt_ten_inj d1 (h1 d1 (by simp)) d2 (h2 d2 (by simp)) h.1
          have ht := ih t2 (fun d hd => h1 d (by simp [hd]))
            (fun d hd => h2 d (by simp [hd])) h.2
          simp [hd, ht]

/-- The decimal character rendering of a natural number is injective. -/
theorem part001_decimalChars_inj (m n : Nat)
    (h : Part001.decimalChars m = Part001.decimalChars n) : m = n := by
  unfold Part001.decimalChars at h
  rw [List.reverse_inj] at h
  have heq := map_digitChar_inj _ _ (part001_decList_lt m) (part001_decList_lt n) h
  calc m = Part001.digitsVal (Part001.decList m) := (part001_decList_val m).symm
    _ = Part001.digitsVal (Part001.decList n) := by rw [heq]
    _ = n := part001_decList_val n

/-- The decimal rendering never contains the underscore separator. -/
theorem part001_decimalChars_ne_underscore (n : Nat) :
    ∀ ch ∈ Part001.decimalChars n, ch ≠ '_' := by
  intro ch hch
  unfold Part001.decimalChars at hch
  rw [List.mem_reverse, List.mem_map] at hch
  obtain ⟨d, hd, hdc⟩ := hch
  subst hdc
  exact digitChar_lt_ten_ne_underscore d (part001_decList_lt n d hd)

/-- `takeWhile (!= sep)` recovers the part before the separator. -/
theorem takeWhile_append_underscore : ∀ (a rest : List Char),
    (∀ ch ∈ a, ch ≠ '_') →
    (a ++ '_' :: rest).takeWhile (fun ch => ch != '_') = a := by
  intro a
  induction a with
  | nil => intro rest _; simp [List.takeWhile]
  | cons c t ih =>
      intro rest h
      have hc : (c != '_') = true := by
        simp only [bne_iff_ne, ne_eq]
        exact h c (by simp)
      simp only [List.cons_append, List.takeWhile_cons, hc, if_true]
      rw [ih rest (fun ch hch => h ch (by simp [hch]))]

/-- The character data of the generated storage path. -/
theorem part001_filePath_data (t : Nat) (f : String) :
    (Part001.filePath t f).data =
      "videos/".data ++ (Part001.decimalChars t ++ '_' :: f.data) := by
  simp [Part001.filePath, Part001.natDec, String.data_append]

/-- Storage paths generated at distinct timestamps differ. -/
theorem part001_filePath_inj (t1 t2 : Nat) (f : String)
    (h : Part001.filePath t1 f = Part001.filePath t2 f) : t1 = t2 := by
  have hd := congrArg String.data h
  rw [part001_filePath_data, part001_filePath_data] at hd
  have h2 := List.append_cancel_left hd
  have h3 := congrArg (List.takeWhile (fun ch => ch != '_')) h2
  rw [takeWhile_append_underscore _ _ (part001_decimalChars_ne_underscore t1),
      takeWhile_append_underscore _ _ (part001_decimalChars_ne_underscore t2)] at h3
  exact part001_decimalChars_inj t1 t2 h3

/-- C9 (counterexample): two accepted get-upload-url requests for the same
file name arriving in the same millisecond (`Date.now()` returns the same
timestamp) produce the identical storage path `videos/5_a.mp4` — the claim
that any two accepted same-name requests yield differing paths fails. -/
theorem c9_counterexample_same_millisecond_same_path :
    (Part001.getUploadUrl 5 ⟨some "a.mp4"⟩).status = 200 ∧
    (Part001.getUploadUrl 5 ⟨some "a.mp4"⟩).path = some "videos/5_a.mp4" := by
  constructor <;> decide

/-- C9 (amended): two accepted get-upload-url requests for the same file
name issued at distinct timestamps both succeed, and their generated
timestamp-prefixed storage paths differ. -/
theorem c9_distinct_timestamps_distinct_paths (t1 t2 : Nat) (f : String)
    (ht : t1 ≠ t2) (hf : f ≠ "")
    (hext : (["mp4", "mov", "m4v", "avi"].contains (Part001.extOf f)) = true) :
    (Part001.getUploadUrl t1 ⟨some f⟩).status = 200 ∧
    (Part001.getUploadUrl t2 ⟨some f⟩).status = 200 ∧
    (Part001.getUploadUrl t1 ⟨some f⟩).path ≠ (Part001.getUploadUrl t2 ⟨some f⟩).path := by
  have hnotfalsy : ¬ (falsyStr (some f) = true) := by simp [falsyStr, hf]
  have hnotext : ¬ ((["mp4", "mov", "m4v", "avi"].contains (Part001.extOf f)) = false) := by
    rw [hext]
    decide
  have hres : ∀ t, (Part001.getUploadUrl t ⟨some f⟩).status = 200 ∧
      (Part001.getUploadUrl t ⟨some f⟩).path = some (Part001.filePath t f) := by
    intro t
    unfold Part001.getUploadUrl
    rw [if_neg hnotfalsy]
    dsimp only [Option.getD]
    rw [if_neg hnotext]
    exact ⟨rfl, rfl⟩
  refine ⟨(hres t1).1, (hres t2).1, ?_⟩
  rw [(hres t1).2, (hres t2).2]
  simp only [ne_eq, Option.some.injEq]
  intro hp
  exact ht (part001_filePath_inj t1 t2 f hp)

/-- Witness for C9 (amended) at timestamps 5 and 6 with file `a.mp4`. -/
theorem c9_distinct_timestamps_distinct_paths_witness :
    (Part001.getUploadUrl 5 ⟨some "a.mp4"⟩).status = 200 ∧
    (Part001.getUploadUrl 6 ⟨some "a.mp4"⟩).status = 200 ∧
    (Part001.getUploadUrl 5 ⟨some "a.mp4"⟩).path ≠ (Part001.getUploadUrl 6 ⟨some "a.mp4"⟩).path :=
  c9_distinct_timestamps_distinct_paths 5 6 "a.mp4" (by decide) (by decide) (by decide)
